import Mathlib

/-!
Shallow embedding of the `appkitgui` helper module and its demo applications
(`appkitgui.py`, `example.py`).  AppKit objects are modelled as Lean structures
whose `Option` fields record which properties a helper assigned (`none` means
the property was never touched after the framework constructor returned);
methods on the demo window become explicit state-passing functions that return
the new window state together with the list of lines printed, mirroring
Python's `print`.
-/

namespace AppKitGui

/-! ### AppKit enumeration constants (values from the AppKit headers) -/

def NSLayoutAttributeLeft : Int := 1

def NSLayoutAttributeCenterY : Int := 10

def NSStackViewDistributionFill : Int := 0

def NSUserInterfaceLayoutOrientationHorizontal : Int := 0

def NSUserInterfaceLayoutOrientationVertical : Int := 1

def NSButtonTypeSwitch : Int := 3

def NSRadioButton : Int := 4

def NSImageScaleProportionallyUpOrDown : Int := 3

def NSImageAlignTopLeft : Int := 9

def NSFileHandlingPanelOKButton : Int := 1

/-- Python's `print(*args)` joins its arguments with a single space. -/
def pyPrint : List String → String
  | [] => ""
  | [s] => s
  | s :: rest => s ++ " " ++ pyPrint rest

/-! ### NSStackView and the `hstack` helper (`appkitgui.py` lines 113-134) -/

/-- Model of an `NSStackView`.  Each configurable property is an `Option`:
`none` means the property still has whatever the framework constructor gave it
and was never assigned by the helper under scrutiny. -/
structure NSStackView where
  spacing : Option Int
  orientation : Option Int
  distribution : Option Int
  alignment : Option Int
  edgeInsets : Option (Int × Int × Int × Int)
  arrangedSubviews : List Nat
  deriving Repr, DecidableEq

/-- `NSStackView.stackViewWithViews_(views)`: a freshly constructed stack view
with no property assigned yet and the given arranged subviews (the sources
always pass `None`, i.e. no subviews). -/
def stackViewWithViews (views : Option (List Nat)) : NSStackView :=
  ⟨none, none, none, none, none, views.getD []⟩

def NSStackView.setSpacing (s : NSStackView) (n : Int) : NSStackView :=
  { s with spacing := some n }

def NSStackView.setOrientation (s : NSStackView) (o : Int) : NSStackView :=
  { s with orientation := some o }

def NSStackView.setDistribution (s : NSStackView) (d : Int) : NSStackView :=
  { s with distribution := some d }

def NSStackView.setAlignment (s : NSStackView) (a : Int) : NSStackView :=
  { s with alignment := some a }

/-- `hstack(align, distribute)` from `appkitgui.py`: create a stack view and
assign spacing 8, horizontal orientation, the given distribution and the given
alignment, in that order. -/
def hstack (align distribute : Int) : NSStackView :=
  ((((stackViewWithViews none).setSpacing 8).setOrientation
      NSUserInterfaceLayoutOrientationHorizontal).setDistribution
      distribute).setAlignment align

/-- `hstack()` called with its default arguments
(`align=NSLayoutAttributeCenterY`, `distribute=NSStackViewDistributionFill`). -/
def hstackDefault : NSStackView :=
  hstack NSLayoutAttributeCenterY NSStackViewDistributionFill

/-! ### NSButton and the `button` / `checkbox` / `radio_button` helpers
(`appkitgui.py` lines 196-221) -/

/-- Model of an `NSButton`, parametric in the Python types of the target and
the action.  `buttonType` is `none` until `setButtonType_` is called;
`stateVal` models `state()` (a fresh button is off, i.e. 0). -/
structure NSButton (τ α : Type) where
  title : String
  target : τ
  action : α
  buttonType : Option Int
  stateVal : Int
  deriving Repr, DecidableEq

/-- `NSButton.buttonWithTitle_target_action_`: the framework constructor. -/
def buttonWithTitleTargetAction {τ α : Type} (title : String) (target : τ)
    (action : α) : NSButton τ α :=
  ⟨title, target, action, none, 0⟩

def NSButton.setButtonType {τ α : Type} (b : NSButton τ α) (t : Int) :
    NSButton τ α :=
  { b with buttonType := some t }

/-- `button(title, target, action)` from `appkitgui.py`: just the framework
constructor call. -/
def button {τ α : Type} (title : String) (target : τ) (action : α) :
    NSButton τ α :=
  buttonWithTitleTargetAction title target action

/-- `checkbox(title, target, action)` from `appkitgui.py`: the framework
constructor call followed by `setButtonType_(NSButtonTypeSwitch)`. -/
def checkbox {τ α : Type} (title : String) (target : τ) (action : α) :
    NSButton τ α :=
  (buttonWithTitleTargetAction title target action).setButtonType
    NSButtonTypeSwitch

/-- `radio_button(title, target, action)` from `appkitgui.py`: the framework
constructor call followed by `setButtonType_(NSRadioButton)`. -/
def radio_button {τ α : Type} (title : String) (target : τ) (action : α) :
    NSButton τ α :=
  (buttonWithTitleTargetAction title target action).setButtonType NSRadioButton

/-! ### NSImageView and the `image_view` helper (`appkitgui.py` lines 257-269) -/

/-- Python truthiness of an `int | None` value: `None` and `0` are falsy. -/
def pyTruthyOptInt : Option Int → Bool
  | none => false
  | some n => n != 0

/-- Model of `NSImage.alloc().initByReferencingFile_(path)`: the image merely
records the referenced file path; no file-system access is modelled because
the source performs none. -/
structure NSImage where
  referencedFile : String
  deriving Repr, DecidableEq

/-- Model of an `NSImageView`.  `widthConstraint` / `heightConstraint` hold the
constant of an activated width / height constraint, `none` when no such
constraint was activated. -/
structure NSImageView where
  image : NSImage
  imageScaling : Option Int
  imageAlignment : Option Int
  widthConstraint : Option Int
  heightConstraint : Option Int
  deriving Repr, DecidableEq

/-- `image_view(path, width, height)` from `appkitgui.py`: reference the file,
set scaling and alignment, then activate a width (resp. height) constraint only
when the `width` (resp. `height`) argument is truthy.  The function is total in
`path`: no existence or readability check is performed and no error is raised. -/
def image_view (path : String) (width height : Option Int) : NSImageView :=
  { image := ⟨path⟩
    imageScaling := some NSImageScaleProportionallyUpOrDown
    imageAlignment := some NSImageAlignTopLeft
    widthConstraint := if pyTruthyOptInt width then width else none
    heightConstraint := if pyTruthyOptInt height then height else none }

/-- The call the example application makes while building its window:
`image_view("image.jpeg", width=200)` (`appkitgui.py` line 397). -/
def demoImage : NSImageView :=
  image_view "image.jpeg" (some 200) none

/-! ### DotView (`example.py` lines 80-110) -/

/-- Colors used by the dot-drawing example. -/
inductive NSColorV where
  | whiteColor
  | orangeColor
  | other (id : Nat)
  deriving Repr, DecidableEq

/-- A rectangle with rational coordinates (exact model of the CGRect
arithmetic in `drawRect_`). -/
structure NSRect where
  x : ℚ
  y : ℚ
  width : ℚ
  height : ℚ
  deriving Repr, DecidableEq

def NSRect.centerX (r : NSRect) : ℚ := r.x + r.width / 2

def NSRect.centerY (r : NSRect) : ℚ := r.y + r.height / 2

/-- A drawing operation issued by `drawRect_`: fill a rectangle, or fill the
oval inscribed in a rectangle, with the current color. -/
inductive DrawOp where
  | fillRect (color : NSColorV) (rect : NSRect)
  | fillOval (color : NSColorV) (rect : NSRect)
  deriving Repr, DecidableEq

/-- The mutable state of a `DotView`: its current radius and color. -/
structure DotView where
  radius : ℚ
  color : NSColorV
  deriving Repr, DecidableEq

/-- `DotView.initWithFrame_`: radius 25, orange. -/
def DotView.initWithFrame : DotView :=
  ⟨25, NSColorV.orangeColor⟩

/-- `DotView.drawRect_` from `example.py`: fill the bounds with white, compute
`dotRect` from the bounds size and the current radius, and fill the oval
inscribed in `dotRect` with the current color.  A view's `bounds()` has origin
(0, 0), so the bounds rectangle is `(0, 0, w, h)`; the function returns the
list of drawing operations together with the stored `self.dotRect`. -/
def DotView.drawRect (v : DotView) (w h : ℚ) : List DrawOp × NSRect :=
  let dotRect : NSRect :=
    ⟨w / 2 - v.radius, h / 2 - v.radius, v.radius * 2, v.radius * 2⟩
  ([DrawOp.fillRect NSColorV.whiteColor ⟨0, 0, w, h⟩,
    DrawOp.fillOval v.color dotRect], dotRect)

/-! ### `constrain_stacks_side_by_side` -/

/-- The frame the layout solver assigns to a stack: its leading x coordinate
and its width (integral coordinates; the example uses the integral padding 8). -/
structure StackFrame where
  leading : Int
  width : Int
  deriving Repr, DecidableEq

def StackFrame.trailing (f : StackFrame) : Int := f.leading + f.width

/-- A layout constraint relating two sibling stacks `a` and `b`. -/
inductive StackConstraint where
  | equalWidth
  | leadingAfterTrailing (padding : Int)
  deriving Repr, DecidableEq

/-- Modelled from the spec: the implementation of
`constrain_stacks_side_by_side` is not under `src/` (the bundled `appkitgui.py`
is an earlier variant without it; `example.py` only imports and calls it).
Per the spec it "activates layout constraints" that make two sibling stacks
"occupy equal (proportionally distributed) widths side by side" with the given
padding between them: an equal-width constraint, and a constraint placing the
second stack's leading edge after the first stack's trailing edge plus the
padding. -/
def constrain_stacks_side_by_side (padding : Int) : List StackConstraint :=
  [StackConstraint.leadingAfterTrailing padding, StackConstraint.equalWidth]

/-- Whether the layout solver's frames `a` and `b` for the two stacks satisfy
one activated constraint. -/
def constraintHolds (a b : StackFrame) : StackConstraint → Bool
  | StackConstraint.equalWidth => a.width == b.width
  | StackConstraint.leadingAfterTrailing p => b.leading == a.trailing + p

/-! ### The DemoWindow state and its action methods -/

/-- A label created by `label(...)` and kept in the demo window's stacks.
Python labels are distinct objects even when their titles coincide, so each
carries the identity `id` it received from the allocator. -/
structure LabelView where
  id : Nat
  title : String
  deriving Repr, DecidableEq

/-- Model of the `NSComboBox` as the delegate callback sees it: only
`objectValueOfSelectedItem` (which is `nil`, i.e. `none`, when nothing is
selected) is consulted. -/
structure NSComboBox where
  objectValueOfSelectedItem : Option String
  deriving Repr, DecidableEq

/-- How Python prints an `str | None` value. -/
def pyShowOptStr : Option String → String
  | none => "None"
  | some s => s

/-- The fields of the demo window touched by the action methods under
scrutiny.  `none` models a Python attribute that is absent or `None`;
`nextLabelId` is the allocator counter handing out fresh label identities;
`hiddenLabels` records the labels on which `setHidden_(True)` was called. -/
structure DemoWindowState where
  label_file : String
  combo_box : Option NSComboBox
  label_stack_list : Option (List LabelView)
  vstack4 : List LabelView
  nextLabelId : Nat
  hiddenLabels : List Nat
  deriving Repr, DecidableEq

/-- Python truthiness of the `_label_stack_list` attribute as tested by
`not getattr(self, "_label_stack_list", None)`: falsy when absent, `None`,
or the empty list. -/
def pyFalsyLabelList : Option (List LabelView) → Bool
  | none => true
  | some l => l.isEmpty

/-- `DemoWindow.choose_file` (`appkitgui.py` lines 448-461, identical in
`example.py`): the panel's modal result and the chosen URLs (already as their
UTF-8 file-system representations) are inputs from the environment.  On
`NSFileHandlingPanelOKButton` the first URL is written to `label_file` and
echoed; otherwise only "choose_file: Canceled" is printed.  `URLs()[0]` on an
empty list would raise `IndexError`, modelled by `Except.error`. -/
def choose_file (st : DemoWindowState) (modalResult : Int)
    (urls : List String) : Except String (DemoWindowState × List String) :=
  if modalResult = NSFileHandlingPanelOKButton then
    match urls with
    | [] => Except.error "IndexError"
    | u :: _ =>
      Except.ok ({ st with label_file := u }, ["choose_file: " ++ u])
  else
    Except.ok (st, ["choose_file: Canceled"])

/-- `DemoWindow.checkbox_action` (`appkitgui.py` lines 407-416, identical in
`example.py`): print the title and state of the sender; the window state is
returned unchanged. -/
def checkbox_action {τ α : Type} (st : DemoWindowState)
    (sender : NSButton τ α) : DemoWindowState × List String :=
  (st, [pyPrint ["Checkbox changed: ", sender.title, toString sender.stateVal]])

/-- `DemoWindow.comboBoxSelectionDidChange_` (`appkitgui.py` lines 430-439):
return immediately when the `combo_box` attribute is absent or falsy,
otherwise print the selected item. -/
def comboBoxSelectionDidChange {ν : Type} (st : DemoWindowState)
    (notification : ν) : DemoWindowState × List String :=
  match st.combo_box with
  | none => (st, [])
  | some cb =>
    (st, [pyPrint ["Combo box selection changed: ",
                   pyShowOptStr cb.objectValueOfSelectedItem]])

/-- `DemoWindow.button_add_to_stack` (`example.py` lines 440-453): replace a
falsy `_label_stack_list` by `[]`, create a fresh label titled `"Item i"` with
`i` the current list length, append it to `_label_stack_list`, and append it to
`vstack4`. -/
def button_add_to_stack (st : DemoWindowState) : DemoWindowState :=
  let lst : List LabelView :=
    if pyFalsyLabelList st.label_stack_list then []
    else st.label_stack_list.getD []
  let i : Nat := lst.length
  let newLabel : LabelView := ⟨st.nextLabelId, "Item " ++ toString i⟩
  { st with
    label_stack_list := some (lst ++ [newLabel])
    vstack4 := st.vstack4 ++ [newLabel]
    nextLabelId := st.nextLabelId + 1 }

/-- `DemoWindow.button_remove_from_stack` (`example.py` lines 455-463): return
immediately when `_label_stack_list` is falsy; otherwise pop its last label,
hide it, and remove it from `vstack4` (`removeArrangedSubview_` /
`removeFromSuperview` remove that object, identified by its `id`). -/
def button_remove_from_stack (st : DemoWindowState) : DemoWindowState :=
  if pyFalsyLabelList st.label_stack_list then st
  else
    let l : List LabelView := st.label_stack_list.getD []
    match l.getLast? with
    | none => st
    | some labelToRemove =>
      { st with
        label_stack_list := some l.dropLast
        vstack4 := st.vstack4.filter (fun v => v.id != labelToRemove.id)
        hiddenLabels := st.hiddenLabels ++ [labelToRemove.id] }

/-- Every label identity in the window is strictly below the allocator
counter, so the next allocated label is a fresh object.  This holds in the
running program because labels only come from the allocator. -/
def freshIds (st : DemoWindowState) : Bool :=
  st.vstack4.all (fun v => v.id < st.nextLabelId) &&
    (st.label_stack_list.getD []).all (fun v => v.id < st.nextLabelId)

/-! ### Concrete inputs used by the witness theorems -/

/-- A solved layout for the two stacks of the example's `hstack0`: two
50-wide frames separated by the example's `PADDING = 8`. -/
def frameA : StackFrame := ⟨0, 50⟩

def frameB : StackFrame := ⟨58, 50⟩

/-- A demo window state just after construction: empty file label, no combo
box, no label stack yet. -/
def stEmpty : DemoWindowState := ⟨"", none, none, [], 0, []⟩

/-- A demo window state with one label already added to the stack. -/
def stOneLabel : DemoWindowState :=
  ⟨"", none, some [⟨0, "Item 0"⟩], [⟨0, "Item 0"⟩], 1, []⟩

/-- A demo window state whose `_label_stack_list` has been emptied again (it
is `[]`, not absent) and which carries other live state. -/
def stEmptiedList : DemoWindowState :=
  ⟨"/tmp/file", none, some [], [⟨3, "keep"⟩], 4, [2]⟩

/-! ## Theorems for the claims -/

/-- C1: any frames the layout solver assigns to two sibling stacks that
satisfy all the constraints activated by `constrain_stacks_side_by_side`
with padding `p` give the stacks equal widths and place them side by side,
the second starting at the first's trailing edge plus the padding. -/
theorem constrain_stacks_side_by_side_equal_widths (a b : StackFrame) (p : Int)
    (h : ∀ c ∈ constrain_stacks_side_by_side p, constraintHolds a b c = true) :
    a.width = b.width ∧ b.leading = a.trailing + p := by
  have h1 := h (StackConstraint.leadingAfterTrailing p)
    (by simp [constrain_stacks_side_by_side])
  have h2 := h StackConstraint.equalWidth
    (by simp [constrain_stacks_side_by_side])
  simp only [constraintHolds, beq_iff_eq] at h1 h2
  exact ⟨h2, h1⟩

/-- Witness for C1 at the concrete frames `frameA`, `frameB` and the
example's padding 8. -/
theorem constrain_stacks_side_by_side_equal_widths_witness :
    (∀ c ∈ constrain_stacks_side_by_side 8,
      constraintHolds frameA frameB c = true) ∧
    (frameA.width = frameB.width ∧
      frameB.leading = frameA.trailing + 8) :=
  ⟨by decide,
   constrain_stacks_side_by_side_equal_widths frameA frameB 8 (by decide)⟩

/-- C2: `choose_file` sets `label_file` to the first chosen URL's UTF-8
file-system path and echoes it when the modal result is
`NSFileHandlingPanelOKButton`; on any other result the whole window state is
returned unchanged and the only printed line is "choose_file: Canceled". -/
theorem choose_file_branches (st : DemoWindowState) (res : Int)
    (urls : List String) (u : String) (rest : List String) :
    (res = NSFileHandlingPanelOKButton →
      choose_file st res (u :: rest) =
        Except.ok ({ st with label_file := u }, ["choose_file: " ++ u])) ∧
    (res ≠ NSFileHandlingPanelOKButton →
      choose_file st res urls =
        Except.ok (st, ["choose_file: Canceled"])) := by
  constructor
  · intro h
    simp [choose_file, h]
  · intro h
    simp [choose_file, h]

/-- Witness for C2: a concrete accepted choice and a concrete cancellation. -/
theorem choose_file_branches_witness :
    choose_file stEmpty 1 ["/tmp/a.txt"] =
      Except.ok ({ stEmpty with label_file := "/tmp/a.txt" },
        ["choose_file: /tmp/a.txt"]) ∧
    choose_file stEmpty 0 ["/tmp/a.txt"] =
      Except.ok (stEmpty, ["choose_file: Canceled"]) :=
  ⟨(choose_file_branches stEmpty 1 ["/tmp/a.txt"] "/tmp/a.txt" []).1 rfl,
   (choose_file_branches stEmpty 0 ["/tmp/a.txt"] "/tmp/a.txt" []).2
     (by decide)⟩

/-- C3: for every bounds size `w × h` and every current radius and color,
`drawRect_` first fills the bounds with white and then fills the oval
inscribed in the rectangle with origin `(w/2 - r, h/2 - r)` and size
`(2r, 2r)` in the current color; that rectangle's center is exactly the
center of the bounds and its width is the diameter `2r`. -/
theorem drawRect_centers_dot (v : DotView) (w h : ℚ) :
    (v.drawRect w h).1 =
      [DrawOp.fillRect NSColorV.whiteColor ⟨0, 0, w, h⟩,
       DrawOp.fillOval v.color
         ⟨w / 2 - v.radius, h / 2 - v.radius, v.radius * 2, v.radius * 2⟩] ∧
    (v.drawRect w h).2.centerX = w / 2 ∧
    (v.drawRect w h).2.centerY = h / 2 ∧
    (v.drawRect w h).2.width = 2 * v.radius := by
  refine ⟨rfl, ?_, ?_, ?_⟩ <;>
    simp only [DotView.drawRect, NSRect.centerX, NSRect.centerY] <;> ring

/-- C4: `hstack(align, distribute)` returns a fresh stack view on which
exactly four properties have been assigned — spacing 8, horizontal
orientation, the given distribution and the given alignment — every other
property being untouched (`none`) and no subview added; the default call uses
`NSLayoutAttributeCenterY` and `NSStackViewDistributionFill`. -/
theorem hstack_assigns_exactly_four_properties (align distribute : Int) :
    hstack align distribute =
      { spacing := some 8
        orientation := some NSUserInterfaceLayoutOrientationHorizontal
        distribution := some distribute
        alignment := some align
        edgeInsets := none
        arrangedSubviews := [] } ∧
    hstackDefault = hstack NSLayoutAttributeCenterY NSStackViewDistributionFill :=
  ⟨rfl, rfl⟩

/-- C5: for every title, target and action, `checkbox` builds exactly what
`button` builds followed by one extra property assignment, the switch button
type; `radio_button` likewise differs from `button` only by the radio button
type. -/
theorem checkbox_is_button_plus_switch_type {τ α : Type} (title : String)
    (target : τ) (action : α) :
    checkbox title target action =
      (button title target action).setButtonType NSButtonTypeSwitch ∧
    radio_button title target action =
      (button title target action).setButtonType NSRadioButton :=
  ⟨rfl, rfl⟩

/-- C6: `image_view` is total in the path — it checks nothing about the file
and raises no error of its own, returning a view whose image references the
given path — and a width (resp. height) constraint is activated iff the
corresponding argument is truthy, in which case its constant is that
argument; the example call uses the hard-coded path "image.jpeg". -/
theorem image_view_no_error_branch (path : String) (width height : Option Int) :
    (image_view path width height).image.referencedFile = path ∧
    ((image_view path width height).widthConstraint.isSome = true ↔
      pyTruthyOptInt width = true) ∧
    ((image_view path width height).heightConstraint.isSome = true ↔
      pyTruthyOptInt height = true) ∧
    (pyTruthyOptInt width = true →
      (image_view path width height).widthConstraint = width) ∧
    (pyTruthyOptInt height = true →
      (image_view path width height).heightConstraint = height) ∧
    demoImage.image.referencedFile = "image.jpeg" := by
  refine ⟨rfl, ?_, ?_, ?_, ?_, rfl⟩
  · rcases width with _ | n
    · simp [image_view, pyTruthyOptInt]
    · by_cases hn : n = 0 <;> simp [image_view, pyTruthyOptInt, hn]
  · rcases height with _ | n
    · simp [image_view, pyTruthyOptInt]
    · by_cases hn : n = 0 <;> simp [image_view, pyTruthyOptInt, hn]
  · intro hw
    simp [image_view, hw]
  · intro hh
    simp [image_view, hh]

/-- Witness for C6 at a nonexistent path with a truthy width and a `None`
height. -/
theorem image_view_no_error_branch_witness :
    (image_view "missing.jpeg" (some 200) none).widthConstraint = some 200 :=
  (image_view_no_error_branch "missing.jpeg" (some 200) none).2.2.2.1
    (by decide)

/-- C7: for every window state and sender, `checkbox_action` leaves the state
unchanged and prints exactly one line, "Checkbox changed: " followed (with
Python's print separator) by the sender's title and state. -/
theorem checkbox_action_prints_one_line {τ α : Type} (st : DemoWindowState)
    (sender : NSButton τ α) :
    checkbox_action st sender =
      (st,
        [pyPrint
          ["Checkbox changed: ", sender.title, toString sender.stateVal]]) ∧
    (checkbox_action st sender).2.length = 1 :=
  ⟨rfl, rfl⟩

/-- C8: from any state whose label identities are fresh,
`button_add_to_stack` appends exactly one new label titled `"Item i"` — with
`i` the length of `_label_stack_list` before the call — to both
`_label_stack_list` and `vstack4`, and a subsequent
`button_remove_from_stack` removes exactly that label, restoring both lists
to their previous contents. -/
theorem add_then_remove_round_trip (st : DemoWindowState)
    (h : freshIds st = true) :
    (button_add_to_stack st).label_stack_list =
      some (st.label_stack_list.getD [] ++
        [⟨st.nextLabelId,
          "Item " ++ toString (st.label_stack_list.getD []).length⟩]) ∧
    (button_add_to_stack st).vstack4 =
      st.vstack4 ++
        [⟨st.nextLabelId,
          "Item " ++ toString (st.label_stack_list.getD []).length⟩] ∧
    (button_remove_from_stack (button_add_to_stack st)).label_stack_list =
      some (st.label_stack_list.getD []) ∧
    (button_remove_from_stack (button_add_to_stack st)).vstack4 =
      st.vstack4 := by
  have hvs : ∀ v ∈ st.vstack4, v.id < st.nextLabelId := by
    simp only [freshIds, Bool.and_eq_true, List.all_eq_true,
      decide_eq_true_eq] at h
    exact h.1
  have hlst :
      (if pyFalsyLabelList st.label_stack_list then []
        else st.label_stack_list.getD []) = st.label_stack_list.getD [] := by
    rcases st.label_stack_list with _ | l
    · simp [pyFalsyLabelList]
    · rcases l with _ | ⟨a, l⟩ <;> simp [pyFalsyLabelList]
  have hfilter :
      st.vstack4.filter (fun v => v.id != st.nextLabelId) = st.vstack4 := by
    rw [List.filter_eq_self]
    intro a ha
    simpa using Nat.ne_of_lt (hvs a ha)
  have hadd : button_add_to_stack st =
      { st with
        label_stack_list := some (st.label_stack_list.getD [] ++
          [⟨st.nextLabelId,
            "Item " ++ toString (st.label_stack_list.getD []).length⟩])
        vstack4 := st.vstack4 ++
          [⟨st.nextLabelId,
            "Item " ++ toString (st.label_stack_list.getD []).length⟩]
        nextLabelId := st.nextLabelId + 1 } := by
    simp only [button_add_to_stack]
    rw [hlst]
  refine ⟨?_, ?_, ?_, ?_⟩
  · rw [hadd]
  · rw [hadd]
  · rw [hadd]
    simp [button_remove_from_stack, pyFalsyLabelList]
  · rw [hadd]
    simp [button_remove_from_stack, pyFalsyLabelList, hfilter]

/-- Witness for C8 at a state holding one label. -/
theorem add_then_remove_round_trip_witness :
    freshIds stOneLabel = true ∧
    (button_remove_from_stack (button_add_to_stack stOneLabel)).vstack4 =
      stOneLabel.vstack4 :=
  ⟨by decide, (add_then_remove_round_trip stOneLabel (by decide)).2.2.2⟩

/-- C9: whenever `_label_stack_list` is absent, `None`, or empty,
`button_remove_from_stack` returns the whole state unchanged — it raises
nothing and modifies neither `_label_stack_list` nor `vstack4` nor anything
else. -/
theorem remove_from_empty_stack_is_noop (st : DemoWindowState)
    (h : pyFalsyLabelList st.label_stack_list = true) :
    button_remove_from_stack st = st := by
  simp [button_remove_from_stack, h]

/-- Witness for C9 at a state whose list was emptied (and is `[]`, not
absent) while other fields carry live data. -/
theorem remove_from_empty_stack_is_noop_witness :
    pyFalsyLabelList stEmptiedList.label_stack_list = true ∧
    button_remove_from_stack stEmptiedList = stEmptiedList :=
  ⟨by decide, remove_from_empty_stack_is_noop stEmptiedList (by decide)⟩

/-- C10: whenever the `combo_box` attribute is absent or `None`,
`comboBoxSelectionDidChange_` returns the state unchanged and prints
nothing, never touching a combo box. -/
theorem comboBox_delegate_safe_without_combo_box {ν : Type}
    (st : DemoWindowState) (notification : ν) (h : st.combo_box = none) :
    comboBoxSelectionDidChange st notification = (st, []) := by
  simp [comboBoxSelectionDidChange, h]

/-- Witness for C10 at the freshly constructed window state. -/
theorem comboBox_delegate_safe_without_combo_box_witness :
    comboBoxSelectionDidChange stEmpty (0 : Nat) = (stEmpty, []) :=
  comboBox_delegate_safe_without_combo_box stEmpty (0 : Nat) rfl

end AppKitGui
